import Mathlib

/-!
Shallow embedding of `src/feature/request/RequestHandler.py` (repository
`GrigoriiSchrodinger/Sender`): a synchronous HTTP client wrapper
(`RequestHandler`, with verb methods `__get__`, `__post__`, `__delete__` and
configuration setters), and the thin resource facade `RequestDataBase` built
on top of it.

Modelling conventions:
* A Python `dict` of strings (headers, `model_dump()` of a pydantic model,
  query-parameter dicts) is an association list `Dict` whose keys are unique;
  lookup takes the first binding, assignment overwrites in place or appends.
* The external `requests` transport is a function from the fully assembled
  outgoing call (`HttpRequest`) to `Option (HttpResponse J)`; `none` stands
  for `requests.exceptions.RequestException` raised during the call.
  `response.json()` is modelled as the total field `json_body` (the claims do
  not probe undecodable bodies under a JSON content type).
* A pydantic response model is abstracted as a validator
  `RespData J → Except Unit M`; `.error ()` stands for
  `pydantic.ValidationError` raised by `parse_obj` / `model_validate`.
* A Python exception escaping a verb method (only endpoint-template
  resolution can do that: `str.format` runs before the `try` block) is the
  `.error` branch of the returned `Except String _`.
-/

namespace Sender

/-- A string-keyed Python `dict` as an association list; callers keep the
keys unique, lookups take the first binding. -/
abbrev Dict := List (String × String)

/-- Python `d.get(k)` / `d[k]` lookup: the first binding for `k`, if any. -/
def dictGet (d : Dict) (k : String) : Option String :=
  match d with
  | [] => none
  | p :: d => if p.1 = k then some p.2 else dictGet d k

/-- Python `d[k] = v`: overwrite the first binding of `k` in place, or append
a fresh binding at the end when `k` is absent. -/
def dictSet (d : Dict) (k v : String) : Dict :=
  match d with
  | [] => [(k, v)]
  | p :: d => if p.1 = k then (k, v) :: d else p :: dictSet d k v

/-- Python `d.update(n)`: assign every binding of `n` into `d`, left to
right. -/
def dictUpdate (d : Dict) : Dict → Dict
  | [] => d
  | p :: n => dictUpdate (dictSet d p.1 p.2) n

/-- One pass of Python `str.format(**m)` over the template's characters.
The first argument is the scanning mode: `none` while copying literal text,
`some acc` while inside a `{...}` placeholder with the name characters read
so far (reversed).  A placeholder whose name has no binding in `m` raises
`KeyError`, modelled as the `.error` branch; an unterminated `{` or a stray
`}` raises `ValueError`.  (`{{`/`}}` escapes, format specs and positional
fields do not occur in the source's endpoint templates and are not
modelled.) -/
def formatChars (m : Dict) : Option (List Char) → List Char → Except String (List Char)
  | none, [] => .ok []
  | some _, [] => .error "ValueError: unmatched brace"
  | none, '{' :: cs => formatChars m (some []) cs
  | none, '}' :: _ => .error "ValueError: single brace"
  | some acc, '}' :: cs =>
    match dictGet m (String.mk acc.reverse) with
    | some v => (formatChars m none cs).map (fun t => v.data ++ t)
    | none => .error ("KeyError: " ++ String.mk acc.reverse)
  | some acc, c :: cs => formatChars m (some (c :: acc)) cs
  | none, c :: cs => (formatChars m none cs).map (fun t => c :: t)

/-- Python `endpoint.format(**m)` on an endpoint template. -/
def pyFormat (s : String) (m : Dict) : Except String String :=
  (formatChars m none s.data).map String.mk

/-- The outgoing HTTP call exactly as handed to the `requests` library: verb,
fully resolved URL, header dict, optional query-parameter dict (`params=`),
optional JSON body dict (`json=`, used by POST only) and timeout. -/
structure HttpRequest where
  method : String
  url : String
  headers : Dict
  params : Option Dict
  json : Option Dict
  timeout : Nat
deriving DecidableEq

/-- A response delivered by the transport: status code, the value of
`response.headers.get('Content-Type')`, the document `response.json()` would
produce, and `response.text`.  `J` is the type of parsed JSON documents. -/
structure HttpResponse (J : Type) where
  status_code : Nat
  content_type : Option String
  json_body : J
  text : String

/-- The external blocking transport: one HTTP round trip.  `none` models
`requests.exceptions.RequestException` raised by the call itself (connection
failure, timeout, DNS failure). -/
abbrev Transport (J : Type) := HttpRequest → Option (HttpResponse J)

/-- Modelled from the spec: `response.raise_for_status()` of the external
`requests` collaborator.  Per the spec's assumed transport contract ("raise
on non-2xx status", section 4.1) it succeeds exactly on 2xx status codes;
the raised error is a `RequestException` caught by every verb method. -/
def raiseForStatusOk (s : Nat) : Bool :=
  200 ≤ s && s < 300

/-- The body value a successful response contributes downstream: the parsed
JSON document, or the raw response text. -/
inductive RespData (J : Type) where
  | json (j : J)
  | text (s : String)
deriving DecidableEq

/-- The line `data = response.json() if response.headers.get('Content-Type')
== 'application/json' else response.text`, shared by all three verbs. -/
def respDataOf {J : Type} (r : HttpResponse J) : RespData J :=
  if r.content_type = some "application/json" then .json r.json_body else .text r.text

/-- A pydantic response model abstracted to its validation behaviour:
`.ok m` is a validated model instance, `.error ()` is the
`pydantic.ValidationError` raised on shape mismatch. -/
abbrev Validator (J M : Type) := RespData J → Except Unit M

/-- Client configuration created by `RequestHandler.__init__`: base URL,
header dict and timeout. -/
structure RequestHandler where
  base_url : String
  headers : Dict
  timeout : Nat
deriving DecidableEq

/-- The outgoing call a verb method assembles: `url = f"{self.base_url}/
{endpoint}"` with the instance's headers and timeout, plus the verb's
query-parameter dict and JSON body dict. -/
def RequestHandler.mkRequest (self : RequestHandler) (method resolved : String)
    (query_params : Option Dict) (body : Option Dict) : HttpRequest :=
  ⟨method, self.base_url ++ "/" ++ resolved, self.headers, query_params, body, self.timeout⟩

/-- The prologue `if path_params: endpoint = endpoint.format(
**path_params.model_dump())` of `__get__` and `__delete__`.  It runs before
the `try` block, so its `.error` branch is an uncaught Python exception. -/
def resolveEndpoint (endpoint : String) (path_params : Option Dict) : Except String String :=
  match path_params with
  | some p => pyFormat endpoint p
  | none => .ok endpoint

/-- `RequestHandler.__get__`.  Pydantic parameter objects are represented by
their field dicts (`path_params.model_dump()`, `query_params.dict()`), the
response model by a `Validator`.  The result is `.error e` when endpoint
resolution raises `e` (uncaught), otherwise `.ok (status, value)` with the
source's `(None, None)` failure sentinel as `(none, none)`; a success value
is the validated model (`Sum.inl`) or the raw parsed/text data
(`Sum.inr`). -/
def RequestHandler.get {J M : Type} (self : RequestHandler) (transport : Transport J)
    (endpoint : String) (path_params query_params : Option Dict)
    (response_model : Option (Validator J M)) :
    Except String (Option Nat × Option (M ⊕ RespData J)) :=
  match resolveEndpoint endpoint path_params with
  | .error e => .error e
  | .ok resolved =>
    .ok <| match transport (self.mkRequest "GET" resolved query_params none) with
      | none => (none, none)
      | some response =>
        if raiseForStatusOk response.status_code then
          match response_model with
          | some model =>
            match model (respDataOf response) with
            | .ok v => (some response.status_code, some (Sum.inl v))
            | .error _ => (none, none)
          | none => (some response.status_code, some (Sum.inr (respDataOf response)))
        else (none, none)

/-- `RequestHandler.__post__`: no path parameters, a JSON body dict
(`data.model_dump()`), and no status code in the result — `none` is the
source's `None` failure sentinel, `some` the bare success value. -/
def RequestHandler.post {J M : Type} (self : RequestHandler) (transport : Transport J)
    (endpoint : String) (data : Option Dict) (response_model : Option (Validator J M)) :
    Option (M ⊕ RespData J) :=
  match transport (self.mkRequest "POST" endpoint none data) with
  | none => none
  | some response =>
    if raiseForStatusOk response.status_code then
      match response_model with
      | some model =>
        match model (respDataOf response) with
        | .ok v => some (Sum.inl v)
        | .error _ => none
      | none => some (Sum.inr (respDataOf response))
    else none

/-- `RequestHandler.__delete__`: same URL and parameter handling as
`__get__`, no response-model validation, no status code in the result. -/
def RequestHandler.delete {J : Type} (self : RequestHandler) (transport : Transport J)
    (endpoint : String) (path_params query_params : Option Dict) :
    Except String (Option (RespData J)) :=
  match resolveEndpoint endpoint path_params with
  | .error e => .error e
  | .ok resolved =>
    .ok <| match transport (self.mkRequest "DELETE" resolved query_params none) with
      | none => none
      | some response =>
        if raiseForStatusOk response.status_code then some (respDataOf response)
        else none

/-- `RequestHandler.set_headers`: `self.headers.update(headers)`. -/
def RequestHandler.set_headers (self : RequestHandler) (headers : Dict) : RequestHandler :=
  ⟨self.base_url, dictUpdate self.headers headers, self.timeout⟩

/-- `RequestHandler.set_timeout`: `self.timeout = timeout`. -/
def RequestHandler.set_timeout (self : RequestHandler) (timeout : Nat) : RequestHandler :=
  ⟨self.base_url, self.headers, timeout⟩

/-- Modelled from the spec: the `DetailBySeed` path-parameter model of
`src.feature.request.schemas` (the schemas module is not under `src/`);
per the spec's data model it is the record `{seed: string}`. -/
structure DetailBySeed where
  seed : String

/-- `model_dump()` of `DetailBySeed`: its field dict. -/
def DetailBySeed.model_dump (m : DetailBySeed) : Dict :=
  [("seed", m.seed)]

/-- Modelled from the spec: the `DeletePostByQueue` path-parameter model of
`src.feature.request.schemas` (not under `src/`); per the spec's data model
it is the record `{channel: string, id_post: integer}`. -/
structure DeletePostByQueue where
  channel : String
  id_post : Int

/-- `model_dump()` of `DeletePostByQueue` as consumed by `str.format`: each
field in the string form `format` interpolates. -/
def DeletePostByQueue.model_dump (m : DeletePostByQueue) : Dict :=
  [("channel", m.channel), ("id_post", toString m.id_post)]

/-- `RequestDataBase.__get_last_send_news__`; the `PostSendNewsList`
response model (schemas not under `src/`) is abstracted as the validator
`vm`. -/
def RequestDataBase.get_last_send_news {J M : Type} (self : RequestHandler)
    (transport : Transport J) (vm : Validator J M) :
    Except String (Option Nat × Option (M ⊕ RespData J)) :=
  self.get transport "send-news/get-news/by/hours" none none (some vm)

/-- `RequestDataBase.__get_last_queue__`; the `PostQueueList` response model
is abstracted as the validator `vm`. -/
def RequestDataBase.get_last_queue {J M : Type} (self : RequestHandler)
    (transport : Transport J) (vm : Validator J M) :
    Except String (Option Nat × Option (M ⊕ RespData J)) :=
  self.get transport "queue/get-news/by/hours" none none (some vm)

/-- `RequestDataBase.__get_detail_by_seed__`: builds `DetailBySeed(seed=seed)`
and delegates to `__get__`; the `DetailBySeedResponse` response model is
abstracted as the validator `vm`. -/
def RequestDataBase.get_detail_by_seed_pair {J M : Type} (self : RequestHandler)
    (transport : Transport J) (vm : Validator J M) (seed : String) :
    Except String (Option Nat × Option (M ⊕ RespData J)) :=
  self.get transport "all-news/detail-by-seed/{seed}"
    (some (DetailBySeed.model_dump ⟨seed⟩)) none (some vm)

/-- `RequestDataBase.get_detail_by_seed`: returns
`self.__get_detail_by_seed__(seed=seed)[1]`. -/
def RequestDataBase.get_detail_by_seed {J M : Type} (self : RequestHandler)
    (transport : Transport J) (vm : Validator J M) (seed : String) :
    Except String (Option (M ⊕ RespData J)) :=
  (RequestDataBase.get_detail_by_seed_pair self transport vm seed).map Prod.snd

/-- `RequestDataBase.get_last_news_queue`: `queue = self.__get_last_queue__()`
then `return queue[1]`. -/
def RequestDataBase.get_last_news_queue {J M : Type} (self : RequestHandler)
    (transport : Transport J) (vm : Validator J M) :
    Except String (Option (M ⊕ RespData J)) :=
  (RequestDataBase.get_last_queue self transport vm).map Prod.snd

/-- `RequestDataBase.get_last_news_send`: second component of
`self.__get_last_send_news__()`. -/
def RequestDataBase.get_last_news_send {J M : Type} (self : RequestHandler)
    (transport : Transport J) (vm : Validator J M) :
    Except String (Option (M ⊕ RespData J)) :=
  (RequestDataBase.get_last_send_news self transport vm).map Prod.snd

/-- `RequestDataBase.delete_news_by_queue`: builds
`DeletePostByQueue(channel=channel, id_post=id_post)` and delegates to
`__delete__`. -/
def RequestDataBase.delete_news_by_queue {J : Type} (self : RequestHandler)
    (transport : Transport J) (channel : String) (id_post : Int) :
    Except String (Option (RespData J)) :=
  RequestHandler.delete self transport "queue/delete-news/{channel}/{id_post}"
    (some (DeletePostByQueue.model_dump ⟨channel, id_post⟩)) none

/-! ### Helper lemmas -/

theorem raiseForStatusOk_iff (s : Nat) : raiseForStatusOk s = true ↔ 200 ≤ s ∧ s < 300 := by
  simp [raiseForStatusOk]

theorem raiseForStatusOk_false (s : Nat) (h : s < 200 ∨ 300 ≤ s) :
    raiseForStatusOk s = false := by
  simp [raiseForStatusOk]
  omega

theorem dictGet_dictSet (d : Dict) (k v k' : String) :
    dictGet (dictSet d k v) k' = if k' = k then some v else dictGet d k' := by
  induction d with
  | nil =>
    by_cases h : k' = k <;> simp [dictSet, dictGet, h, Ne.symm]
  | cons p d ih =>
    by_cases hp : p.1 = k
    · by_cases h : k' = k <;> simp [dictSet, dictGet, hp, h, Ne.symm]
    · by_cases h : k' = p.1
      · simp [dictSet, dictGet, hp, h]
      · simp [dictSet, dictGet, hp, h, Ne.symm, ih]

theorem dictGet_eq_none (n : Dict) (k : String) (h : k ∉ n.map Prod.fst) :
    dictGet n k = none := by
  induction n with
  | nil => rfl
  | cons q n ih =>
    simp only [List.map_cons, List.mem_cons, not_or] at h
    have hq : q.1 ≠ k := fun he => h.1 he.symm
    simp [dictGet, hq, ih h.2]

theorem dictGet_dictUpdate (n : Dict) (hn : (n.map Prod.fst).Nodup) (d : Dict) (k : String) :
    dictGet (dictUpdate d n) k = (dictGet n k).orElse (fun _ => dictGet d k) := by
  induction n generalizing d with
  | nil => simp [dictUpdate, dictGet]
  | cons p n ih =>
    simp only [List.map_cons, List.nodup_cons] at hn
    rw [show dictUpdate d (p :: n) = dictUpdate (dictSet d p.1 p.2) n from rfl, ih hn.2]
    by_cases h : k = p.1
    · subst h
      simp [dictGet_eq_none n p.1 hn.1, dictGet, dictGet_dictSet]
    · simp [dictGet, dictGet_dictSet, h, Ne.symm h]

theorem format_detail_by_seed (seed : String) :
    pyFormat "all-news/detail-by-seed/{seed}" [("seed", seed)] =
      .ok ("all-news/detail-by-seed/" ++ seed) := by
  simp [pyFormat, formatChars, dictGet, Except.map]
  apply String.ext
  simp [String.data_append]

theorem format_delete_news (c p : String) :
    pyFormat "queue/delete-news/{channel}/{id_post}" [("channel", c), ("id_post", p)] =
      .ok ("queue/delete-news/" ++ c ++ "/" ++ p) := by
  simp [pyFormat, formatChars, dictGet, Except.map]
  apply String.ext
  simp [String.data_append]

theorem get_isOk {J M : Type} (self : RequestHandler) (t : Transport J) (endpoint : String)
    (pp qp : Option Dict) (rm : Option (Validator J M)) (resolved : String)
    (hres : resolveEndpoint endpoint pp = .ok resolved) :
    ∃ p, RequestHandler.get self t endpoint pp qp rm = .ok p := by
  unfold RequestHandler.get
  rw [hres]
  exact ⟨_, rfl⟩

/-! ### Claim theorems -/

/-- Claim C1: when the transport call fails (raises `RequestException`) or
every response the transport delivers has a non-2xx status (so
`raise_for_status` raises), each verb method catches the error and returns
its null sentinel — `(none, none)` for `__get__`, `none` for `__post__` and
`__delete__` — and the transport error never escapes (the only `.error`
results of `__get__`/`__delete__` come from endpoint resolution, settled
separately under C2). -/
theorem C1_transport_failure_null_sentinel {J M : Type}
    (self : RequestHandler) (t : Transport J) (endpoint : String)
    (pp qp d : Option Dict) (rm : Option (Validator J M))
    (hfail : ∀ req r, t req = some r → r.status_code < 200 ∨ 300 ≤ r.status_code) :
    (∀ p, RequestHandler.get self t endpoint pp qp rm = .ok p → p = (none, none)) ∧
    RequestHandler.post self t endpoint d rm = none ∧
    (∀ o, RequestHandler.delete self t endpoint pp qp = .ok o → o = none) := by
  refine ⟨?_, ?_, ?_⟩
  · intro p hp
    unfold RequestHandler.get at hp
    cases hres : resolveEndpoint endpoint pp with
    | error e => simp [hres] at hp
    | ok resolved =>
      rw [hres] at hp
      cases ht : t (self.mkRequest "GET" resolved qp none) with
      | none => simp [ht] at hp; exact hp.symm
      | some resp =>
        simp [ht, raiseForStatusOk_false _ (hfail _ _ ht)] at hp
        exact hp.symm
  · unfold RequestHandler.post
    cases ht : t (self.mkRequest "POST" endpoint none d) with
    | none => rfl
    | some resp => simp [raiseForStatusOk_false _ (hfail _ _ ht)]
  · intro o ho
    unfold RequestHandler.delete at ho
    cases hres : resolveEndpoint endpoint pp with
    | error e => simp [hres] at ho
    | ok resolved =>
      rw [hres] at ho
      cases ht : t (self.mkRequest "DELETE" resolved qp none) with
      | none => simp [ht] at ho; exact ho.symm
      | some resp =>
        simp [ht, raiseForStatusOk_false _ (hfail _ _ ht)] at ho
        exact ho.symm

/-- Witness for C1 at a transport that always raises. -/
theorem C1_transport_failure_null_sentinel_witness :
    RequestHandler.post (J := Unit) (M := Unit) ⟨"http://0.0.0.0:8000/", [], 10⟩
      (fun _ => none) "queue/get-news/by/hours" none none = none :=
  (C1_transport_failure_null_sentinel ⟨"http://0.0.0.0:8000/", [], 10⟩
    (fun _ => none) "queue/get-news/by/hours" none none none none
    (fun _ _ h => Option.noConfusion h)).2.1

/-- Claim C2 counterexample: `__get__` on the endpoint template
`all-news/detail-by-seed/{seed}` with a path-parameter object whose only
field is `foo` raises `KeyError: seed` out of the method — `str.format` runs
before the `try` block — instead of returning the null sentinel, so not every
failure is silent. -/
theorem C2_counterexample :
    RequestHandler.get (J := Unit) (M := Unit) ⟨"http://0.0.0.0:8000/", [], 10⟩
      (fun _ => none) "all-news/detail-by-seed/{seed}" (some [("foo", "bar")]) none none
      = .error "KeyError: seed" := by
  rfl

/-- Claim C2 as amended: for `__get__` and `__delete__`, every failure
occurring inside the request — transport error, non-2xx status, validation
error — is caught and turned into the null sentinel, but endpoint-template
resolution runs before the `try` block, so a placeholder with no matching
field on the path-parameter object raises (`KeyError`) to the caller: the
methods produce an exception exactly when `str.format` fails. -/
theorem C2_amended_only_format_errors_escape {J M : Type}
    (self : RequestHandler) (t : Transport J) (endpoint : String)
    (pp qp : Option Dict) (rm : Option (Validator J M)) (e : String) :
    (RequestHandler.get self t endpoint pp qp rm = .error e ↔
      ∃ p, pp = some p ∧ pyFormat endpoint p = .error e) ∧
    (RequestHandler.delete self t endpoint pp qp = .error e ↔
      ∃ p, pp = some p ∧ pyFormat endpoint p = .error e) := by
  constructor
  · unfold RequestHandler.get
    cases pp with
    | none => simp [resolveEndpoint]
    | some p =>
      cases hf : pyFormat endpoint p with
      | error e' => simp [resolveEndpoint, hf]
      | ok resolved => simp [resolveEndpoint, hf]
  · unfold RequestHandler.delete
    cases pp with
    | none => simp [resolveEndpoint]
    | some p =>
      cases hf : pyFormat endpoint p with
      | error e' => simp [resolveEndpoint, hf]
      | ok resolved => simp [resolveEndpoint, hf]

/-- Claim C3: when the transport delivers a 2xx response but the declared
response model rejects the parsed body (pydantic raises `ValidationError`),
`__get__` returns the full sentinel `(none, none)` and `__post__` returns
`none` — never a partially populated value. -/
theorem C3_validation_failure_null_sentinel {J M : Type}
    (self : RequestHandler) (t : Transport J)
    (endpoint resolved epP : String) (pp qp d : Option Dict)
    (vm vmP : Validator J M) (respG respP : HttpResponse J)
    (hres : resolveEndpoint endpoint pp = .ok resolved)
    (htG : t (self.mkRequest "GET" resolved qp none) = some respG)
    (hsG : 200 ≤ respG.status_code ∧ respG.status_code < 300)
    (hvG : vm (respDataOf respG) = .error ())
    (htP : t (self.mkRequest "POST" epP none d) = some respP)
    (hsP : 200 ≤ respP.status_code ∧ respP.status_code < 300)
    (hvP : vmP (respDataOf respP) = .error ()) :
    RequestHandler.get self t endpoint pp qp (some vm) = .ok (none, none) ∧
    RequestHandler.post self t epP d (some vmP) = none := by
  have hbG : raiseForStatusOk respG.status_code = true := (raiseForStatusOk_iff _).mpr hsG
  have hbP : raiseForStatusOk respP.status_code = true := (raiseForStatusOk_iff _).mpr hsP
  constructor
  · unfold RequestHandler.get
    rw [hres]
    simp [htG, hbG, hvG]
  · unfold RequestHandler.post
    simp [htP, hbP, hvP]

/-- Witness for C3 at a 200 JSON response and an always-rejecting model. -/
theorem C3_validation_failure_null_sentinel_witness :
    RequestHandler.get (J := Unit) (M := Unit) ⟨"http://0.0.0.0:8000/", [], 10⟩
      (fun _ => some ⟨200, some "application/json", (), "{}"⟩)
      "queue/get-news/by/hours" none none (some (fun _ => .error ())) = .ok (none, none) ∧
    RequestHandler.post (J := Unit) (M := Unit) ⟨"http://0.0.0.0:8000/", [], 10⟩
      (fun _ => some ⟨200, some "application/json", (), "{}"⟩)
      "send-news/get-news/by/hours" none (some (fun _ => .error ())) = none :=
  C3_validation_failure_null_sentinel ⟨"http://0.0.0.0:8000/", [], 10⟩
    (fun _ => some ⟨200, some "application/json", (), "{}"⟩)
    "queue/get-news/by/hours" "queue/get-news/by/hours" "send-news/get-news/by/hours"
    none none none (fun _ => .error ()) (fun _ => .error ())
    ⟨200, some "application/json", (), "{}"⟩ ⟨200, some "application/json", (), "{}"⟩
    rfl rfl (by decide) rfl rfl (by decide) rfl

/-- Claim C4: on a 2xx response each verb parses the body as JSON exactly
when the response declares `Content-Type: application/json`, and passes the
raw text through unparsed otherwise; when a response model is requested and
the body is non-JSON raw text the failing validation collapses safely to the
null sentinel instead of crashing. -/
theorem C4_content_type_dispatch {J M : Type}
    (self : RequestHandler) (t : Transport J)
    (endpoint resolved epP : String) (pp qp d : Option Dict)
    (vm vmP : Validator J M) (respG respP respD : HttpResponse J)
    (hres : resolveEndpoint endpoint pp = .ok resolved)
    (htG : t (self.mkRequest "GET" resolved qp none) = some respG)
    (hsG : 200 ≤ respG.status_code ∧ respG.status_code < 300)
    (htP : t (self.mkRequest "POST" epP none d) = some respP)
    (hsP : 200 ≤ respP.status_code ∧ respP.status_code < 300)
    (htD : t (self.mkRequest "DELETE" resolved qp none) = some respD)
    (hsD : 200 ≤ respD.status_code ∧ respD.status_code < 300) :
    (respG.content_type = some "application/json" →
      RequestHandler.get self t endpoint pp qp (none : Option (Validator J M)) =
        .ok (some respG.status_code, some (Sum.inr (RespData.json respG.json_body)))) ∧
    (respG.content_type ≠ some "application/json" →
      RequestHandler.get self t endpoint pp qp (none : Option (Validator J M)) =
        .ok (some respG.status_code, some (Sum.inr (RespData.text respG.text)))) ∧
    (respG.content_type = some "application/json" →
      ∀ v, vm (RespData.json respG.json_body) = .ok v →
        RequestHandler.get self t endpoint pp qp (some vm) =
          .ok (some respG.status_code, some (Sum.inl v))) ∧
    (respG.content_type ≠ some "application/json" →
      vm (RespData.text respG.text) = .error () →
        RequestHandler.get self t endpoint pp qp (some vm) = .ok (none, none)) ∧
    (respP.content_type = some "application/json" →
      RequestHandler.post self t epP d (none : Option (Validator J M)) =
        some (Sum.inr (RespData.json respP.json_body))) ∧
    (respP.content_type ≠ some "application/json" →
      RequestHandler.post self t epP d (none : Option (Validator J M)) =
        some (Sum.inr (RespData.text respP.text))) ∧
    (respP.content_type = some "application/json" →
      ∀ v, vmP (RespData.json respP.json_body) = .ok v →
        RequestHandler.post self t epP d (some vmP) = some (Sum.inl v)) ∧
    (respP.content_type ≠ some "application/json" →
      vmP (RespData.text respP.text) = .error () →
        RequestHandler.post self t epP d (some vmP) = none) ∧
    (respD.content_type = some "application/json" →
      RequestHandler.delete self t endpoint pp qp =
        .ok (some (RespData.json respD.json_body))) ∧
    (respD.content_type ≠ some "application/json" →
      RequestHandler.delete self t endpoint pp qp = .ok (some (RespData.text respD.text))) := by
  have hbG : raiseForStatusOk respG.status_code = true := (raiseForStatusOk_iff _).mpr hsG
  have hbP : raiseForStatusOk respP.status_code = true := (raiseForStatusOk_iff _).mpr hsP
  have hbD : raiseForStatusOk respD.status_code = true := (raiseForStatusOk_iff _).mpr hsD
  refine ⟨?_, ?_, ?_, ?_, ?_, ?_, ?_, ?_, ?_, ?_⟩
  · intro hct
    unfold RequestHandler.get
    rw [hres]
    simp [htG, hbG, respDataOf, hct]
  · intro hct
    unfold RequestHandler.get
    rw [hres]
    simp [htG, hbG, respDataOf, hct]
  · intro hct v hv
    unfold RequestHandler.get
    rw [hres]
    simp [htG, hbG, respDataOf, hct, hv]
  · intro hct hv
    unfold RequestHandler.get
    rw [hres]
    simp [htG, hbG, respDataOf, hct, hv]
  · intro hct
    unfold RequestHandler.post
    simp [htP, hbP, respDataOf, hct]
  · intro hct
    unfold RequestHandler.post
    simp [htP, hbP, respDataOf, hct]
  · intro hct v hv
    unfold RequestHandler.post
    simp [htP, hbP, respDataOf, hct, hv]
  · intro hct hv
    unfold RequestHandler.post
    simp [htP, hbP, respDataOf, hct, hv]
  · intro hct
    unfold RequestHandler.delete
    rw [hres]
    simp [htD, hbD, respDataOf, hct]
  · intro hct
    unfold RequestHandler.delete
    rw [hres]
    simp [htD, hbD, respDataOf, hct]

/-- Witness for C4 at concrete 200 responses, one JSON and one plain text. -/
theorem C4_content_type_dispatch_witness :
    RequestHandler.get (J := Unit) (M := Unit) ⟨"http://0.0.0.0:8000/", [], 10⟩
      (fun _ => some ⟨200, some "application/json", (), "{}"⟩)
      "queue/get-news/by/hours" none none none =
      .ok (some 200, some (Sum.inr (RespData.json ()))) :=
  (C4_content_type_dispatch ⟨"http://0.0.0.0:8000/", [], 10⟩
    (fun _ => some ⟨200, some "application/json", (), "{}"⟩)
    "queue/get-news/by/hours" "queue/get-news/by/hours" "send-news/get-news/by/hours"
    none none none (fun _ => .error ()) (fun _ => .error ())
    ⟨200, some "application/json", (), "{}"⟩ ⟨200, some "application/json", (), "{}"⟩
    ⟨200, some "application/json", (), "{}"⟩
    rfl rfl (by decide) rfl (by decide) rfl (by decide)).1 rfl

/-- Claim C5: `__get_detail_by_seed__(seed)` resolves its endpoint template
to the path `all-news/detail-by-seed/<seed>`, and the one outgoing call is a
GET on that path under the base URL with no query parameters (`params` is
`None`) and no request body (`requests.get` sends none): the method's result
depends on the transport only at that request. -/
theorem C5_detail_by_seed_request {J M : Type}
    (self : RequestHandler) (seed : String) (vm : Validator J M) (t t2 : Transport J) :
    resolveEndpoint "all-news/detail-by-seed/{seed}" (some (DetailBySeed.model_dump ⟨seed⟩)) =
      .ok ("all-news/detail-by-seed/" ++ seed) ∧
    self.mkRequest "GET" ("all-news/detail-by-seed/" ++ seed) none none =
      ⟨"GET", self.base_url ++ "/" ++ ("all-news/detail-by-seed/" ++ seed),
        self.headers, none, none, self.timeout⟩ ∧
    (t (self.mkRequest "GET" ("all-news/detail-by-seed/" ++ seed) none none) =
        t2 (self.mkRequest "GET" ("all-news/detail-by-seed/" ++ seed) none none) →
      RequestDataBase.get_detail_by_seed_pair self t vm seed =
        RequestDataBase.get_detail_by_seed_pair self t2 vm seed) := by
  have hres : resolveEndpoint "all-news/detail-by-seed/{seed}"
      (some (DetailBySeed.model_dump ⟨seed⟩)) = .ok ("all-news/detail-by-seed/" ++ seed) := by
    simp [resolveEndpoint, DetailBySeed.model_dump, format_detail_by_seed]
  refine ⟨hres, rfl, ?_⟩
  intro heq
  simp only [RequestDataBase.get_detail_by_seed_pair, RequestHandler.get, hres]
  rw [heq]

/-- Witness for C5's transport-agreement hypothesis at two equal concrete
transports. -/
theorem C5_detail_by_seed_request_witness :
    RequestDataBase.get_detail_by_seed_pair (J := Unit) (M := Unit)
      ⟨"http://0.0.0.0:8000/", [], 10⟩ (fun _ => none) (fun _ => .error ()) "seed123" =
    RequestDataBase.get_detail_by_seed_pair (J := Unit) (M := Unit)
      ⟨"http://0.0.0.0:8000/", [], 10⟩ (fun _ => none) (fun _ => .error ()) "seed123" :=
  (C5_detail_by_seed_request ⟨"http://0.0.0.0:8000/", [], 10⟩ "seed123"
    (fun _ => .error ()) (fun _ => none) (fun _ => none)).2.2 rfl

/-- Claim C6: `delete_news_by_queue(channel, id_post)` resolves its endpoint
template to the path `queue/delete-news/<channel>/<id_post>`, and the one
outgoing call is a DELETE on that path under the base URL: the method's
result depends on the transport only at that request. -/
theorem C6_delete_news_by_queue_request {J : Type}
    (self : RequestHandler) (channel : String) (id_post : Int) (t t2 : Transport J) :
    resolveEndpoint "queue/delete-news/{channel}/{id_post}"
        (some (DeletePostByQueue.model_dump ⟨channel, id_post⟩)) =
      .ok ("queue/delete-news/" ++ channel ++ "/" ++ toString id_post) ∧
    self.mkRequest "DELETE" ("queue/delete-news/" ++ channel ++ "/" ++ toString id_post)
        none none =
      ⟨"DELETE", self.base_url ++ "/" ++
          ("queue/delete-news/" ++ channel ++ "/" ++ toString id_post),
        self.headers, none, none, self.timeout⟩ ∧
    (t (self.mkRequest "DELETE"
          ("queue/delete-news/" ++ channel ++ "/" ++ toString id_post) none none) =
        t2 (self.mkRequest "DELETE"
          ("queue/delete-news/" ++ channel ++ "/" ++ toString id_post) none none) →
      RequestDataBase.delete_news_by_queue self t channel id_post =
        RequestDataBase.delete_news_by_queue self t2 channel id_post) := by
  have hres : resolveEndpoint "queue/delete-news/{channel}/{id_post}"
      (some (DeletePostByQueue.model_dump ⟨channel, id_post⟩)) =
      .ok ("queue/delete-news/" ++ channel ++ "/" ++ toString id_post) := by
    simp [resolveEndpoint, DeletePostByQueue.model_dump, format_delete_news]
  refine ⟨hres, rfl, ?_⟩
  intro heq
  simp only [RequestDataBase.delete_news_by_queue, RequestHandler.delete, hres]
  rw [heq]

/-- Witness for C6's transport-agreement hypothesis at two equal concrete
transports. -/
theorem C6_delete_news_by_queue_request_witness :
    RequestDataBase.delete_news_by_queue (J := Unit)
      ⟨"http://0.0.0.0:8000/", [], 10⟩ (fun _ => none) "tg" 42 =
    RequestDataBase.delete_news_by_queue (J := Unit)
      ⟨"http://0.0.0.0:8000/", [], 10⟩ (fun _ => none) "tg" 42 :=
  (C6_delete_news_by_queue_request ⟨"http://0.0.0.0:8000/", [], 10⟩ "tg" 42
    (fun _ => none) (fun _ => none)).2.2 rfl

/-- Claim C7: `set_headers(h)` merges `h` into the current headers — bindings
of `h` win, other bindings survive, no key is removed — leaves `base_url`
and `timeout` unchanged, and every outgoing request assembled afterwards
carries exactly the merged header dict. -/
theorem C7_set_headers_merge (self : RequestHandler) (h : Dict)
    (hnodup : (h.map Prod.fst).Nodup) :
    (RequestHandler.set_headers self h).base_url = self.base_url ∧
    (RequestHandler.set_headers self h).timeout = self.timeout ∧
    (∀ k, dictGet (RequestHandler.set_headers self h).headers k =
      (dictGet h k).orElse (fun _ => dictGet self.headers k)) ∧
    (∀ k, dictGet (RequestHandler.set_headers self h).headers k = none →
      dictGet self.headers k = none) ∧
    (∀ method resolved qp b,
      ((RequestHandler.set_headers self h).mkRequest method resolved qp b).headers =
        dictUpdate self.headers h) := by
  refine ⟨rfl, rfl, ?_, ?_, fun _ _ _ _ => rfl⟩
  · intro k
    exact dictGet_dictUpdate h hnodup self.headers k
  · intro k hk
    simp only [RequestHandler.set_headers] at hk
    have hme := dictGet_dictUpdate h hnodup self.headers k
    rw [hk] at hme
    cases hg : dictGet h k with
    | some v => rw [hg] at hme; simp [Option.orElse] at hme
    | none => rw [hg] at hme; simpa [Option.orElse] using hme.symm

/-- Witness for C7: merging `X-Token: abc` over `Accept: json`. -/
theorem C7_set_headers_merge_witness :
    (RequestHandler.set_headers ⟨"http://0.0.0.0:8000/", [("Accept", "json")], 10⟩
      [("X-Token", "abc")]).base_url = "http://0.0.0.0:8000/" ∧
    dictGet (RequestHandler.set_headers ⟨"http://0.0.0.0:8000/", [("Accept", "json")], 10⟩
        [("X-Token", "abc")]).headers "X-Token" =
      (dictGet [("X-Token", "abc")] "X-Token").orElse
        (fun _ => dictGet [("Accept", "json")] "X-Token") :=
  ⟨(C7_set_headers_merge ⟨"http://0.0.0.0:8000/", [("Accept", "json")], 10⟩
      [("X-Token", "abc")] (by decide)).1,
    (C7_set_headers_merge ⟨"http://0.0.0.0:8000/", [("Accept", "json")], 10⟩
      [("X-Token", "abc")] (by decide)).2.2.1 "X-Token"⟩

/-- Claim C8: `__post__` returns the bare value — the validated model when a
response model is given, otherwise the raw parsed/text data — with no status
code in the result (its result type has no status component, unlike the
`(status, value)` pair of `__get__`), and `none` on any error. -/
theorem C8_post_returns_bare_value {J M : Type}
    (self : RequestHandler) (t : Transport J) (endpoint : String) (d : Option Dict)
    (vm : Validator J M) (resp : HttpResponse J)
    (ht : t (self.mkRequest "POST" endpoint none d) = some resp)
    (hs : 200 ≤ resp.status_code ∧ resp.status_code < 300) :
    (∀ v, vm (respDataOf resp) = .ok v →
      RequestHandler.post self t endpoint d (some vm) = some (Sum.inl v)) ∧
    (RequestHandler.post self t endpoint d (none : Option (Validator J M)) =
      some (Sum.inr (respDataOf resp))) ∧
    (vm (respDataOf resp) = .error () →
      RequestHandler.post self t endpoint d (some vm) = none) ∧
    (∀ t' : Transport J,
      (∀ req r, t' req = some r → r.status_code < 200 ∨ 300 ≤ r.status_code) →
      RequestHandler.post self t' endpoint d (some vm) = none) := by
  have hb : raiseForStatusOk resp.status_code = true := (raiseForStatusOk_iff _).mpr hs
  refine ⟨?_, ?_, ?_, ?_⟩
  · intro v hv
    unfold RequestHandler.post
    simp [ht, hb, hv]
  · unfold RequestHandler.post
    simp [ht, hb]
  · intro hv
    unfold RequestHandler.post
    simp [ht, hb, hv]
  · intro t' hfail
    unfold RequestHandler.post
    cases ht' : t' (self.mkRequest "POST" endpoint none d) with
    | none => rfl
    | some r => simp [raiseForStatusOk_false _ (hfail _ _ ht')]

/-- Witness for C8 at a 200 JSON response without a response model. -/
theorem C8_post_returns_bare_value_witness :
    RequestHandler.post (J := Unit) (M := Unit) ⟨"http://0.0.0.0:8000/", [], 10⟩
      (fun _ => some ⟨200, some "application/json", (), "{}"⟩)
      "send-news/get-news/by/hours" none none =
      some (Sum.inr (respDataOf ⟨200, some "application/json", (), "{}"⟩)) :=
  (C8_post_returns_bare_value ⟨"http://0.0.0.0:8000/", [], 10⟩
    (fun _ => some ⟨200, some "application/json", (), "{}"⟩)
    "send-news/get-news/by/hours" none (fun _ => .error ())
    ⟨200, some "application/json", (), "{}"⟩ rfl (by decide)).2.1

/-- Claim C9: the convenience methods `get_detail_by_seed`,
`get_last_news_queue` and `get_last_news_send` return exactly the second
component (the payload) of the `(status, payload)` pair produced by the
underlying dunder call, for every transport outcome — the payload on
success, `none` when the underlying call failed — discarding the status. -/
theorem C9_convenience_unwrap {J M : Type}
    (self : RequestHandler) (t : Transport J) (vm : Validator J M) (seed : String) :
    (∃ p, RequestDataBase.get_detail_by_seed_pair self t vm seed = .ok p ∧
      RequestDataBase.get_detail_by_seed self t vm seed = .ok p.2) ∧
    (∃ p, RequestDataBase.get_last_queue self t vm = .ok p ∧
      RequestDataBase.get_last_news_queue self t vm = .ok p.2) ∧
    (∃ p, RequestDataBase.get_last_send_news self t vm = .ok p ∧
      RequestDataBase.get_last_news_send self t vm = .ok p.2) := by
  refine ⟨?_, ?_, ?_⟩
  · obtain ⟨p, hp⟩ := get_isOk self t "all-news/detail-by-seed/{seed}"
      (some (DetailBySeed.model_dump ⟨seed⟩)) none (some vm)
      ("all-news/detail-by-seed/" ++ seed)
      (by simp [resolveEndpoint, DetailBySeed.model_dump, format_detail_by_seed])
    exact ⟨p, hp, by
      simp [RequestDataBase.get_detail_by_seed, RequestDataBase.get_detail_by_seed_pair, hp,
        Except.map]⟩
  · obtain ⟨p, hp⟩ := get_isOk self t "queue/get-news/by/hours" none none (some vm) _ rfl
    exact ⟨p, hp, by
      simp [RequestDataBase.get_last_news_queue, RequestDataBase.get_last_queue, hp,
        Except.map]⟩
  · obtain ⟨p, hp⟩ := get_isOk self t "send-news/get-news/by/hours" none none (some vm) _ rfl
    exact ⟨p, hp, by
      simp [RequestDataBase.get_last_news_send, RequestDataBase.get_last_send_news, hp,
        Except.map]⟩

/-- Claim C10: any non-exceptional result of `__get__` is either the null
sentinel `(none, none)` or a pair of a successful (2xx) status code and a
present value; a status is never paired with an absent value or vice
versa. -/
theorem C10_get_result_shape {J M : Type}
    (self : RequestHandler) (t : Transport J) (endpoint : String)
    (pp qp : Option Dict) (rm : Option (Validator J M))
    (r : Option Nat × Option (M ⊕ RespData J))
    (h : RequestHandler.get self t endpoint pp qp rm = .ok r) :
    r = (none, none) ∨
      ∃ s v, r = (some s, some v) ∧ 200 ≤ s ∧ s < 300 := by
  unfold RequestHandler.get at h
  cases hres : resolveEndpoint endpoint pp with
  | error e => simp [hres] at h
  | ok resolved =>
    rw [hres] at h
    cases ht : t (self.mkRequest "GET" resolved qp none) with
    | none =>
      simp only [ht] at h
      exact .inl (Except.ok.inj h).symm
    | some resp =>
      cases hs : raiseForStatusOk resp.status_code with
      | false =>
        simp [ht, hs] at h
        exact .inl h.symm
      | true =>
        have hb := (raiseForStatusOk_iff resp.status_code).mp hs
        cases rm with
        | none =>
          simp [ht, hs] at h
          exact .inr ⟨resp.status_code, _, h.symm, hb⟩
        | some model =>
          cases hv : model (respDataOf resp) with
          | ok v =>
            simp [ht, hs, hv] at h
            exact .inr ⟨resp.status_code, _, h.symm, hb⟩
          | error u =>
            simp [ht, hs, hv] at h
            exact .inl h.symm

/-- Witness for C10 at a transport returning a 200 JSON response. -/
theorem C10_get_result_shape_witness :
    ((some 200, some (Sum.inr (RespData.json ()))) :
        Option Nat × Option (Unit ⊕ RespData Unit)) = (none, none) ∨
      ∃ s v, ((some 200, some (Sum.inr (RespData.json ()))) :
        Option Nat × Option (Unit ⊕ RespData Unit)) = (some s, some v) ∧ 200 ≤ s ∧ s < 300 :=
  C10_get_result_shape ⟨"http://0.0.0.0:8000/", [], 10⟩
    (fun _ => some ⟨200, some "application/json", (), "{}"⟩)
    "queue/get-news/by/hours" none none none _ (by rfl)

end Sender
